import Mathlib

/-!
Verification development for the artb backend (`server.js` and its sibling
variant).  The JavaScript handlers are shallowly embedded as pure Lean
functions: multipart uploads, the external AI call and the mail transport
become explicit parameters (an outcome value for the external call, a store
of uploaded file paths), and each Express handler becomes a function from
its inputs to an HTTP response plus the resulting state.
-/

/-- The double-quote character (code point 34), named to keep string
handling readable. -/
def dquoteChar : Char := Char.ofNat 34

/-- The single-quote character (code point 39). -/
def squoteChar : Char := Char.ofNat 39

/-- ASCII whitespace recognised by the JavaScript trim method (the
handlers only ever trim ASCII payload fields). -/
def isJsWhitespace (c : Char) : Bool :=
  c = ' ' || c = '\t' || c = '\n' || c = '\r' || c = Char.ofNat 11 || c = Char.ofNat 12

/-- Embedding of JavaScript `s.trim()`: drop whitespace from both ends. -/
def jsTrim (s : String) : String :=
  String.mk (((s.data.dropWhile isJsWhitespace).reverse.dropWhile isJsWhitespace).reverse)

/-- Embedding of the JavaScript values that can appear in a parsed JSON
request body (objects are projected to the fields the handlers read). -/
inductive JsValue where
  | vUndefined
  | vNull
  | vBool (b : Bool)
  | vNum (n : Int)
  | vStr (s : String)
  | vArr (items : List JsValue)

/-- Joining a list of strings with a separator, as the JavaScript array
join and template literals do. -/
def joinSep (sep : String) : List String → String
  | [] => ""
  | [x] => x
  | x :: y :: rest => x ++ sep ++ joinSep sep (y :: rest)

mutual

/-- Embedding of JavaScript `String(v)` on the modelled values.  Arrays
stringify as their elements joined by commas, with `null`/`undefined`
elements rendered as the empty string, as `Array.prototype.toString` does. -/
def jsToString : JsValue → String
  | .vUndefined => "undefined"
  | .vNull => "null"
  | .vBool b => if b then "true" else "false"
  | .vNum n => toString n
  | .vStr s => s
  | .vArr items => joinSep "," (jsArrParts items)

/-- Stringification of the elements of a JavaScript array, as performed by
`Array.prototype.toString`. -/
def jsArrParts : List JsValue → List String
  | [] => []
  | JsValue.vUndefined :: rest => "" :: jsArrParts rest
  | JsValue.vNull :: rest => "" :: jsArrParts rest
  | v :: rest => jsToString v :: jsArrParts rest

end

/-- JavaScript truthiness on the modelled values. -/
def jsTruthy : JsValue → Bool
  | .vUndefined => false
  | .vNull => false
  | .vBool b => b
  | .vNum n => n != 0
  | .vStr s => s != ""
  | .vArr _ => true

/-- Embedding of the nullish-coalescing operator `v ?? d`. -/
def jsCoalesce (v d : JsValue) : JsValue :=
  match v with
  | .vUndefined => d
  | .vNull => d
  | _ => v

/-- Embedding of the idiom used by the `/survey`, `/contact` and
`/preregister` handlers in `server.js`: when the value is a string, trim
it; any other type becomes the empty string. -/
def trimmedField (v : JsValue) : String :=
  match v with
  | .vStr s => jsTrim s
  | _ => ""

/-- Double every double-quote character, as the global double-quote
replacement does in `sanitizeCsvValue` (`server.js` line 89). -/
def dupQuotes : List Char → List Char
  | [] => []
  | c :: rest =>
    if c = dquoteChar then dquoteChar :: dquoteChar :: dupQuotes rest
    else c :: dupQuotes rest

/-- Embedding of `sanitizeCsvValue` from `server.js` line 89: the
coalesced, stringified value with every double quote doubled, wrapped in
double quotes. -/
def sanitizeCsvValue (value : JsValue) : String :=
  String.mk (dquoteChar :: dupQuotes (jsToString (jsCoalesce value (.vStr ""))).data ++ [dquoteChar])

/-- Standard CSV field decoding, the inverse direction for
`sanitizeCsvValue`: strip the enclosing double quotes and collapse every
doubled double quote. -/
def collapseQuotes : List Char → List Char
  | [] => []
  | [c] => [c]
  | c1 :: c2 :: rest =>
    if c1 = dquoteChar ∧ c2 = dquoteChar then dquoteChar :: collapseQuotes rest
    else c1 :: collapseQuotes (c2 :: rest)

/-- Decode one quoted CSV field: require enclosing double quotes and
collapse each interior doubled quote. -/
def csvFieldDecode (s : String) : Option String :=
  let l := s.data
  if 2 ≤ l.length ∧ l.head? = some dquoteChar ∧ l.getLast? = some dquoteChar then
    some (String.mk (collapseQuotes (l.drop 1).dropLast))
  else none

/-- Replace every occurrence of the character `c` by the replacement
`rep`, the embedding of `String.prototype.replace` with a global
single-character pattern. -/
def replaceChar (c : Char) (rep : List Char) : List Char → List Char
  | [] => []
  | x :: rest =>
    if x = c then rep ++ replaceChar c rep rest
    else x :: replaceChar c rep rest

/-- Character-list core of `escapeHtml` (`server.js` lines 91-97): the five
sequential global replacements, ampersand first. -/
def escapeHtmlChars (l : List Char) : List Char :=
  replaceChar squoteChar "&#39;".data
    (replaceChar dquoteChar "&quot;".data
      (replaceChar '>' "&gt;".data
        (replaceChar '<' "&lt;".data
          (replaceChar '&' "&amp;".data l))))

/-- Specialisation of `escapeHtml` to a value already known to be a
string. -/
def escapeHtmlStr (s : String) : String :=
  String.mk (escapeHtmlChars s.data)

/-- Embedding of `escapeHtml` from `server.js` lines 91-97. -/
def escapeHtml (value : JsValue) : String :=
  escapeHtmlStr (jsToString (jsCoalesce value (.vStr "")))

/-- Per-character HTML encoding: the intended effect of the replacement
chain in `escapeHtml`, applied to each source character independently. -/
def escapeHtmlChar (c : Char) : List Char :=
  if c = '&' then "&amp;".data
  else if c = '<' then "&lt;".data
  else if c = '>' then "&gt;".data
  else if c = dquoteChar then "&quot;".data
  else if c = squoteChar then "&#39;".data
  else [c]

/-- Character-wise escaping of a whole string, the specification-level
reading of `escapeHtml`. -/
def escapeAll : List Char → List Char
  | [] => []
  | c :: rest => escapeHtmlChar c ++ escapeAll rest

/-- JSON response bodies produced by the handlers. -/
inductive RespBody where
  | jsonError (msg : String)
  | jsonMessage (msg : String)
  | jsonFeedback (text : String)
  | jsonStyleFeedback (text : String)
  | jsonReply (text : String)
deriving DecidableEq

/-- An HTTP response: status code plus JSON body. -/
structure HttpResponse where
  status : Nat
  body : RespBody
deriving DecidableEq

/-- A file part attached to a multipart request (only its declared MIME
type matters to the handlers). -/
structure FilePart where
  mimetype : String
deriving DecidableEq

/-- The request file object as produced by multer: the stored path plus
the declared MIME type. -/
structure UploadedFile where
  path : String
  mimetype : String
deriving DecidableEq

/-- Outcome of the single external inference call
(`model.generateContent` / `chat.sendMessage`): the returned text, or the
raw provider error text when the call (or the preceding file read)
throws. -/
inductive ExtResult where
  | ok (text : String)
  | fail (errText : String)
deriving DecidableEq

/-- Everything observable about one upload-route request: the resulting
upload store, the HTTP response, whether the external inference call was
issued, whether the upload middleware wrote a file to storage, and the
MIME type forwarded in the call payload (if a call was issued). -/
structure RouteOutcome where
  store : List String
  response : HttpResponse
  externalCallIssued : Bool
  fileWritten : Bool
  callPayloadMime : Option String
deriving DecidableEq

/-- Embedding of `removeFileSafely` (`server.js` lines 78-87): delete the
file if a path was captured; errors are logged and swallowed. -/
def removeFileSafely (imagePath : Option String) (store : List String) : List String :=
  match imagePath with
  | none => store
  | some p => store.erase p

/-- The `POST /analyze` handler body of `server.js` lines 106-136.
`genAIConfigured` models `genAI !== null`, `file` is `req.file`, `ext`
the outcome of the AI call, `written` records whether multer wrote a
file, and `store` is the set of stored upload paths when the handler
starts. -/
def analyzeHandler (genAIConfigured : Bool) (file : Option UploadedFile)
    (ext : ExtResult) (written : Bool) (store : List String) : RouteOutcome :=
  let imagePath := file.map (fun f => f.path)
  if genAIConfigured then
    match file with
    | none => ⟨store, ⟨400, .jsonError "이미지 파일이 없습니다."⟩, false, written, none⟩
    | some f =>
      match ext with
      | .ok text =>
        ⟨removeFileSafely imagePath store, ⟨200, .jsonFeedback text⟩, true, written, some f.mimetype⟩
      | .fail _ =>
        ⟨removeFileSafely imagePath store, ⟨500, .jsonError "AI 분석 중 오류가 발생했습니다."⟩,
          true, written, some f.mimetype⟩
  else
    ⟨removeFileSafely imagePath store, ⟨500, .jsonError "AI 서비스 설정이 필요합니다."⟩,
      false, written, none⟩

/-- The `POST /analyze-style` handler body of `server.js` lines 139-169;
same control flow as `/analyze` with its own messages and response
field. -/
def analyzeStyleHandler (genAIConfigured : Bool) (file : Option UploadedFile)
    (ext : ExtResult) (written : Bool) (store : List String) : RouteOutcome :=
  let imagePath := file.map (fun f => f.path)
  if genAIConfigured then
    match file with
    | none => ⟨store, ⟨400, .jsonError "이미지 파일이 없습니다."⟩, false, written, none⟩
    | some f =>
      match ext with
      | .ok text =>
        ⟨removeFileSafely imagePath store, ⟨200, .jsonStyleFeedback text⟩, true, written,
          some f.mimetype⟩
      | .fail _ =>
        ⟨removeFileSafely imagePath store,
          ⟨500, .jsonError "AI 스타일 분석 중 오류가 발생했습니다."⟩, true, written, some f.mimetype⟩
  else
    ⟨removeFileSafely imagePath store, ⟨500, .jsonError "AI 서비스 설정이 필요합니다."⟩,
      false, written, none⟩

/-- Unlink performed inside the `catch` block of the sibling variant
(`part_000` line 113): `if (req.file && req.file.path) fs.unlinkSync(...)`. -/
def removeFileOnCatch (file : Option UploadedFile) (store : List String) : List String :=
  match file with
  | none => store
  | some f => store.erase f.path

/-- The `POST /analyze` handler of the sibling variant (`part_000` lines
88-115): the missing-service check throws into the shared `catch`, the
success path unlinks with `fs.unlinkSync` before responding, and the
`catch` responds 500 and unlinks the file when present. -/
def analyzeHandlerV2 (genAIConfigured : Bool) (file : Option UploadedFile)
    (ext : ExtResult) (written : Bool) (store : List String) : RouteOutcome :=
  if genAIConfigured then
    match file with
    | none => ⟨store, ⟨400, .jsonError "이미지 파일이 없습니다."⟩, false, written, none⟩
    | some f =>
      match ext with
      | .ok text => ⟨store.erase f.path, ⟨200, .jsonFeedback text⟩, true, written, some f.mimetype⟩
      | .fail _ =>
        ⟨removeFileOnCatch file store, ⟨500, .jsonError "AI 분석 중 오류가 발생했습니다."⟩,
          true, written, some f.mimetype⟩
  else
    ⟨removeFileOnCatch file store, ⟨500, .jsonError "AI 분석 중 오류가 발생했습니다."⟩,
      false, written, none⟩

/-- The `POST /analyze-style` handler of the sibling variant (`part_000`
lines 118-144). -/
def analyzeStyleHandlerV2 (genAIConfigured : Bool) (file : Option UploadedFile)
    (ext : ExtResult) (written : Bool) (store : List String) : RouteOutcome :=
  if genAIConfigured then
    match file with
    | none => ⟨store, ⟨400, .jsonError "이미지 파일이 없습니다."⟩, false, written, none⟩
    | some f =>
      match ext with
      | .ok text =>
        ⟨store.erase f.path, ⟨200, .jsonStyleFeedback text⟩, true, written, some f.mimetype⟩
      | .fail _ =>
        ⟨removeFileOnCatch file store,
          ⟨500, .jsonError "AI 스타일 분석 중 오류가 발생했습니다."⟩, true, written, some f.mimetype⟩
  else
    ⟨removeFileOnCatch file store, ⟨500, .jsonError "AI 스타일 분석 중 오류가 발생했습니다."⟩,
      false, written, none⟩

/-- The multer stage for the single image field followed by a handler: when
the request carries a file part, multer stores it under a fresh generated
path (no MIME filtering is configured on `multer({ dest })`), then the
handler runs. -/
def runUploadRoute
    (handler : Bool → Option UploadedFile → ExtResult → Bool → List String → RouteOutcome)
    (genAIConfigured : Bool) (filePart : Option FilePart) (newPath : String)
    (ext : ExtResult) (store : List String) : RouteOutcome :=
  match filePart with
  | none => handler genAIConfigured none ext false store
  | some fp => handler genAIConfigured (some ⟨newPath, fp.mimetype⟩) ext true (newPath :: store)

/-- Route `POST /analyze` of `server.js` (upload middleware plus
handler). -/
def analyzeRoute (genAIConfigured : Bool) (filePart : Option FilePart) (newPath : String)
    (ext : ExtResult) (store : List String) : RouteOutcome :=
  runUploadRoute analyzeHandler genAIConfigured filePart newPath ext store

/-- Route `POST /analyze-style` of `server.js`. -/
def analyzeStyleRoute (genAIConfigured : Bool) (filePart : Option FilePart) (newPath : String)
    (ext : ExtResult) (store : List String) : RouteOutcome :=
  runUploadRoute analyzeStyleHandler genAIConfigured filePart newPath ext store

/-- Route `POST /analyze` of the sibling variant. -/
def analyzeRouteV2 (genAIConfigured : Bool) (filePart : Option FilePart) (newPath : String)
    (ext : ExtResult) (store : List String) : RouteOutcome :=
  runUploadRoute analyzeHandlerV2 genAIConfigured filePart newPath ext store

/-- Route `POST /analyze-style` of the sibling variant. -/
def analyzeStyleRouteV2 (genAIConfigured : Bool) (filePart : Option FilePart) (newPath : String)
    (ext : ExtResult) (store : List String) : RouteOutcome :=
  runUploadRoute analyzeStyleHandlerV2 genAIConfigured filePart newPath ext store

/-- The `POST /chat` handler of `server.js` lines 172-206.  The returned
flag records whether the external call was issued. -/
def chatHandler (genAIConfigured : Bool) (message : JsValue) (ext : ExtResult) :
    HttpResponse × Bool :=
  if genAIConfigured then
    let userMessage := trimmedField message
    if userMessage = "" then (⟨400, .jsonError "메시지가 없습니다."⟩, false)
    else
      match ext with
      | .ok reply => (⟨200, .jsonReply reply⟩, true)
      | .fail _ => (⟨500, .jsonError "AI 챗봇 처리 중 오류가 발생했습니다."⟩, true)
  else (⟨500, .jsonError "AI 서비스 설정이 필요합니다."⟩, false)

/-- Header line written when `survey_results.csv` does not yet exist
(`server.js` line 228). -/
def surveyHeader : String := "Timestamp,Role,Interests,Feedback\n"

/-- The `interests` normalization of the `/survey` handler (`server.js`
lines 216-220): `Array.isArray(interests) ? interests : interests ?
[interests] : []`. -/
def interestsListOf : JsValue → List JsValue
  | .vArr items => items
  | v => if jsTruthy v then [v] else []

/-- The CSV row built by the `/survey` handler (`server.js` lines
210-224): timestamp plus the sanitized role, interests and feedback
fields, newline-terminated.  The parenthesisation mirrors the template
literal, which is a flat concatenation. -/
def surveyRow (timestamp : String) (role interests feedback : JsValue) : String :=
  let roleValue := trimmedField role
  let interestsText :=
    joinSep "; " ((interestsListOf interests).map (fun item => jsTrim (jsToString item)))
  let feedbackValue := trimmedField feedback
  timestamp ++
    ("," ++
      (sanitizeCsvValue (.vStr roleValue) ++
        ("," ++
          (sanitizeCsvValue (.vStr interestsText) ++
            ("," ++ (sanitizeCsvValue (.vStr feedbackValue) ++ "\n"))))))

/-- The `POST /survey` handler (`server.js` lines 210-236).  `csvFile`
models `survey_results.csv` (`none` while the file does not exist);
`storageOk` models whether the synchronous file writes succeed.  On
success the row is appended (after writing the header when the file was
absent) and the handler responds 200; a storage fault is caught and
mapped to a 500 error. -/
def surveyHandler (timestamp : String) (role interests feedback : JsValue)
    (csvFile : Option String) (storageOk : Bool) : Option String × HttpResponse :=
  let csvRow := surveyRow timestamp role interests feedback
  if storageOk then
    let base := match csvFile with
      | none => surveyHeader
      | some content => content
    (some (base ++ csvRow), ⟨200, .jsonMessage "설문이 성공적으로 제출되었습니다."⟩)
  else
    (csvFile, ⟨500, .jsonError "데이터 저장 중 오류가 발생했습니다."⟩)

/-- A notification message handed to the mail transport: subject and
rendered HTML body. -/
structure MailMsg where
  subject : String
  html : String
deriving DecidableEq

/-- Template pieces of the `/contact` notification body (`server.js` line
292), split around the three interpolation points. -/
def contactTplA : String := "<h3>새로운 문의가 도착했습니다.</h3><p><strong>보낸 사람:</strong> "

def contactTplB : String := "</p><p><strong>이메일:</strong> "

def contactTplC : String := "</p><hr><p><strong>내용:</strong></p><p>"

def contactTplD : String := "</p>"

/-- Subject-line pieces of the `/contact` notification (`server.js` line
291). -/
def contactSubjPre : String := "📢 Artb 새로운 문의 도착: "

def contactSubjPost : String := "님"

/-- The `POST /contact` handler (`server.js` lines 269-302): trim the
three fields, reject when any is empty, reject when the mail transport is
not configured, escape each field (`escapeHtml`, with newlines in the
message converted to `<br>` after escaping), send one mail, and map a
transport failure to a generic 500.  The second component is the mail
handed to the transport, when one was sent. -/
def contactHandler (emailConfigured : Bool) (name email message : JsValue)
    (sendOk : Bool) : HttpResponse × Option MailMsg :=
  let trimmedName := trimmedField name
  let trimmedEmail := trimmedField email
  let messageValue := trimmedField message
  if trimmedName = "" ∨ trimmedEmail = "" ∨ messageValue = "" then
    (⟨400, .jsonError "모든 필드를 입력해주세요."⟩, none)
  else if emailConfigured then
    let safeName := escapeHtmlStr trimmedName
    let safeEmail := escapeHtmlStr trimmedEmail
    let safeMessage := String.mk (replaceChar '\n' "<br>".data (escapeHtmlStr messageValue).data)
    let mail : MailMsg :=
      ⟨contactSubjPre ++ safeName ++ contactSubjPost,
        contactTplA ++ safeName ++ (contactTplB ++ (safeEmail ++
          (contactTplC ++ (safeMessage ++ contactTplD))))⟩
    if sendOk then (⟨200, .jsonMessage "문의가 성공적으로 전달되었습니다."⟩, some mail)
    else (⟨500, .jsonError "처리 중 오류가 발생했습니다."⟩, some mail)
  else (⟨500, .jsonError "서버 이메일 설정이 필요합니다."⟩, none)

/-- Template pieces of the `/preregister` notification body (`server.js`
line 256), split around the single interpolation point. -/
def preregTplA : String := "<h3>새로운 사용자가 사전 등록했습니다!</h3><p><strong>이메일:</strong> "

def preregTplB : String := "</p>"

/-- Subject of the `/preregister` notification (`server.js` line 255). -/
def preregSubj : String := "🎉 Artb 신규 사전 등록 알림"

/-- The `POST /preregister` handler (`server.js` lines 239-266): trim the
email, reject when empty, reject when the mail transport is not
configured, then interpolate the trimmed email directly into the HTML
body (no escaping appears in the source) and send one mail. -/
def preregisterHandler (emailConfigured : Bool) (email : JsValue)
    (sendOk : Bool) : HttpResponse × Option MailMsg :=
  let trimmedEmail := trimmedField email
  if trimmedEmail = "" then (⟨400, .jsonError "이메일 주소가 필요합니다."⟩, none)
  else if emailConfigured then
    let mail : MailMsg := ⟨preregSubj, preregTplA ++ (trimmedEmail ++ preregTplB)⟩
    if sendOk then (⟨200, .jsonMessage "사전 등록이 완료되었습니다."⟩, some mail)
    else (⟨500, .jsonError "처리 중 오류가 발생했습니다."⟩, some mail)
  else (⟨500, .jsonError "서버 이메일 설정이 필요합니다."⟩, none)

/-- Rendering of the `/preregister` body as the specification describes
it — the trimmed email passed through the HTML-escaping step before
interpolation.  Stated only for comparison with the actual rendering in
the code. -/
def preregMailHtmlSpec (trimmedEmail : String) : String :=
  preregTplA ++ (escapeHtmlStr trimmedEmail ++ preregTplB)

/-- The statically configured CORS allow-set (`part_000` lines 18-22). -/
def allowedOrigins : List String := ["http://artb.co.kr", "https://artb.co.kr"]

/-- The `corsOptions.origin` decision (`part_000` lines 23-32): accept
when `!origin` (header absent, or present with an empty value — both are
falsy) or when the origin is found in the allow-set; otherwise pass a
CORS error to the callback. -/
def corsOriginAccepts : Option String → Bool
  | none => true
  | some origin => (origin == "") || allowedOrigins.contains origin

/-- The origin check as the specification words it: accept exactly when
the declared origin is absent or a member of the allow-set.  Stated only
for comparison with `corsOriginAccepts`. -/
def corsSpecAccepts : Option String → Bool
  | none => true
  | some origin => allowedOrigins.contains origin

/-- The middleware pipeline around a browser-facing route: `cors` is
registered before the body parser and the handler, so a rejected origin
short-circuits with a CORS error and the body is never processed.  The
second component records whether the request body was processed. -/
def requestPipeline (origin : Option String) (handlerResult : HttpResponse) :
    HttpResponse × Bool :=
  if corsOriginAccepts origin then (handlerResult, true)
  else (⟨500, .jsonError "CORS 정책에 의해 허용되지 않는 Origin입니다."⟩, false)

lemma collapseQuotes_dupQuotes (l : List Char) : collapseQuotes (dupQuotes l) = l := by
  induction l with
  | nil => rfl
  | cons c rest ih =>
    by_cases hc : c = dquoteChar
    · subst hc
      simpa [dupQuotes, collapseQuotes] using ih
    · rw [dupQuotes, if_neg hc]
      cases h : dupQuotes rest with
      | nil =>
        rw [h] at ih
        have hr : rest = [] := by simpa [collapseQuotes] using ih.symm
        simp [collapseQuotes, hr]
      | cons y ys =>
        have hcond : ¬ (c = dquoteChar ∧ y = dquoteChar) := fun hcc => hc hcc.1
        rw [collapseQuotes, if_neg hcond, ← h, ih]

lemma sanitize_vStr (s : String) :
    sanitizeCsvValue (.vStr s) = String.mk (dquoteChar :: (dupQuotes s.data ++ [dquoteChar])) := by
  simp [sanitizeCsvValue, jsCoalesce, jsToString]

lemma csvFieldDecode_sanitize (s : String) :
    csvFieldDecode (sanitizeCsvValue (.vStr s)) = some s := by
  rw [sanitize_vStr]
  unfold csvFieldDecode
  have hlen : 2 ≤ (dquoteChar :: (dupQuotes s.data ++ [dquoteChar])).length := by
    simp
  have hhead : (dquoteChar :: (dupQuotes s.data ++ [dquoteChar])).head? = some dquoteChar := rfl
  have hlast : (dquoteChar :: (dupQuotes s.data ++ [dquoteChar])).getLast? = some dquoteChar := by
    have : dquoteChar :: (dupQuotes s.data ++ [dquoteChar])
        = (dquoteChar :: dupQuotes s.data) ++ [dquoteChar] := by simp
    rw [this, List.getLast?_concat]
  rw [if_pos ⟨hlen, hhead, hlast⟩]
  have hdrop : (dquoteChar :: (dupQuotes s.data ++ [dquoteChar])).drop 1
      = dupQuotes s.data ++ [dquoteChar] := rfl
  rw [hdrop, List.dropLast_concat, collapseQuotes_dupQuotes]

lemma replaceChar_cons (c : Char) (rep : List Char) (x : Char) (rest : List Char) :
    replaceChar c rep (x :: rest) = (if x = c then rep else [x]) ++ replaceChar c rep rest := by
  by_cases hx : x = c <;> simp [replaceChar, hx]

lemma replaceChar_append (c : Char) (rep : List Char) (a b : List Char) :
    replaceChar c rep (a ++ b) = replaceChar c rep a ++ replaceChar c rep b := by
  induction a with
  | nil => rfl
  | cons x xs ih => by_cases hx : x = c <;> simp [replaceChar, hx, ih]

lemma escapeHead (x : Char) :
    replaceChar squoteChar "&#39;".data (replaceChar dquoteChar "&quot;".data
      (replaceChar '>' "&gt;".data (replaceChar '<' "&lt;".data
        (if x = '&' then "&amp;".data else [x])))) = escapeHtmlChar x := by
  by_cases h1 : x = '&'
  · subst h1; decide
  · rw [if_neg h1]
    by_cases h2 : x = '<'
    · subst h2; decide
    · by_cases h3 : x = '>'
      · subst h3; decide
      · by_cases h4 : x = dquoteChar
        · subst h4; decide
        · by_cases h5 : x = squoteChar
          · subst h5; decide
          · simp [replaceChar, escapeHtmlChar, h1, h2, h3, h4, h5]

lemma escapeHtmlChars_eq_escapeAll (l : List Char) : escapeHtmlChars l = escapeAll l := by
  induction l with
  | nil => rfl
  | cons x rest ih =>
    have h1 : escapeHtmlChars (x :: rest)
        = replaceChar squoteChar "&#39;".data (replaceChar dquoteChar "&quot;".data
            (replaceChar '>' "&gt;".data (replaceChar '<' "&lt;".data
              (if x = '&' then "&amp;".data else [x])))) ++ escapeHtmlChars rest := by
      unfold escapeHtmlChars
      rw [replaceChar_cons, replaceChar_append, replaceChar_append, replaceChar_append,
        replaceChar_append]
    rw [h1, escapeHead, ih]
    rfl

lemma mem_escapeHtmlChar {y x : Char} (h : y ∈ escapeHtmlChar x) :
    y ≠ '<' ∧ y ≠ '>' ∧ y ≠ dquoteChar ∧ y ≠ squoteChar := by
  unfold escapeHtmlChar at h
  by_cases h1 : x = '&'
  · rw [if_pos h1] at h
    simp at h
    rcases h with h | h | h | h | h <;> subst h <;> decide
  · rw [if_neg h1] at h
    by_cases h2 : x = '<'
    · rw [if_pos h2] at h
      simp at h
      rcases h with h | h | h | h <;> subst h <;> decide
    · rw [if_neg h2] at h
      by_cases h3 : x = '>'
      · rw [if_pos h3] at h
        simp at h
        rcases h with h | h | h | h <;> subst h <;> decide
      · rw [if_neg h3] at h
        by_cases h4 : x = dquoteChar
        · rw [if_pos h4] at h
          simp at h
          rcases h with h | h | h | h | h | h <;> subst h <;> decide
        · rw [if_neg h4] at h
          by_cases h5 : x = squoteChar
          · rw [if_pos h5] at h
            simp at h
            rcases h with h | h | h | h | h <;> subst h <;> decide
          · rw [if_neg h5] at h
            simp at h
            subst h
            exact ⟨h2, h3, h4, h5⟩

lemma mem_escapeAll {y : Char} : ∀ {l : List Char}, y ∈ escapeAll l →
    ∃ x, x ∈ l ∧ y ∈ escapeHtmlChar x := by
  intro l
  induction l with
  | nil => intro h; simp [escapeAll] at h
  | cons x rest ih =>
    intro h
    rw [escapeAll] at h
    rcases List.mem_append.mp h with h | h
    · exact ⟨x, by simp, h⟩
    · obtain ⟨z, hz, hy⟩ := ih h
      exact ⟨z, by simp [hz], hy⟩

/-- C1: every request to `/analyze` or `/analyze-style` (in both source
variants) that acquires an uploaded file deletes the backing
storage before the handler returns, on every exit path — configuration
error, external-call success and external-call failure alike; a freshly
stored upload path never survives in the store. -/
theorem uploaded_asset_never_survives :
    ∀ (cfg : Bool) (fp : Option FilePart) (p : String) (ext : ExtResult) (store : List String),
      p ∉ store →
      p ∉ (analyzeRoute cfg fp p ext store).store ∧
      p ∉ (analyzeStyleRoute cfg fp p ext store).store ∧
      p ∉ (analyzeRouteV2 cfg fp p ext store).store ∧
      p ∉ (analyzeStyleRouteV2 cfg fp p ext store).store := by
  intro cfg fp p ext store hp
  have herase : (p :: store).erase p = store := by simp
  cases fp <;> cases cfg <;> cases ext <;>
    simp [analyzeRoute, analyzeStyleRoute, analyzeRouteV2, analyzeStyleRouteV2,
      runUploadRoute, analyzeHandler, analyzeStyleHandler, analyzeHandlerV2,
      analyzeStyleHandlerV2, removeFileSafely, removeFileOnCatch, herase, hp]

/-- C1 witness: a concrete configured request with an uploaded file whose
external call succeeds leaves no trace of the upload. -/
theorem uploaded_asset_never_survives_witness :
    "u1" ∉ (analyzeRoute true (some ⟨"image/png"⟩) "u1" (.ok "feedback") []).store ∧
    "u1" ∉ (analyzeStyleRoute true (some ⟨"image/png"⟩) "u1" (.ok "feedback") []).store ∧
    "u1" ∉ (analyzeRouteV2 true (some ⟨"image/png"⟩) "u1" (.ok "feedback") []).store ∧
    "u1" ∉ (analyzeStyleRouteV2 true (some ⟨"image/png"⟩) "u1" (.ok "feedback") []).store :=
  uploaded_asset_never_survives true (some ⟨"image/png"⟩) "u1" (.ok "feedback") [] (by simp)

/-- C2 counterexample: a request whose file field declares the non-image
MIME type `text/plain` is not rejected — the file is written to storage,
the external call is issued with that MIME type, and the response is 200. -/
theorem mime_not_validated_cex :
    (analyzeRoute true (some ⟨"text/plain"⟩) "u1" (.ok "fb") []).response.status = 200 ∧
    (analyzeRoute true (some ⟨"text/plain"⟩) "u1" (.ok "fb") []).externalCallIssued = true ∧
    (analyzeRoute true (some ⟨"text/plain"⟩) "u1" (.ok "fb") []).fileWritten = true ∧
    (analyzeRoute true (some ⟨"text/plain"⟩) "u1" (.ok "fb") []).callPayloadMime
      = some "text/plain" := by
  decide

/-- C2 amended: the upload routes perform no MIME-type validation at all —
for every declared MIME type the upload middleware writes the file to
storage, and when the AI service is configured the external call is
issued with that MIME type forwarded unchanged; no 400 rejection occurs
on MIME grounds. -/
theorem mime_never_validated :
    ∀ (cfg : Bool) (mt p : String) (ext : ExtResult) (store : List String),
      (analyzeRoute cfg (some ⟨mt⟩) p ext store).fileWritten = true ∧
      (analyzeStyleRoute cfg (some ⟨mt⟩) p ext store).fileWritten = true ∧
      (analyzeRouteV2 cfg (some ⟨mt⟩) p ext store).fileWritten = true ∧
      (analyzeStyleRouteV2 cfg (some ⟨mt⟩) p ext store).fileWritten = true ∧
      (analyzeRoute true (some ⟨mt⟩) p ext store).externalCallIssued = true ∧
      (analyzeRoute true (some ⟨mt⟩) p ext store).callPayloadMime = some mt ∧
      (analyzeStyleRoute true (some ⟨mt⟩) p ext store).externalCallIssued = true ∧
      (analyzeStyleRoute true (some ⟨mt⟩) p ext store).callPayloadMime = some mt ∧
      (analyzeRoute true (some ⟨mt⟩) p ext store).response.status ≠ 400 ∧
      (analyzeStyleRoute true (some ⟨mt⟩) p ext store).response.status ≠ 400 := by
  intro cfg mt p ext store
  cases cfg <;> cases ext <;>
    simp [analyzeRoute, analyzeStyleRoute, analyzeRouteV2, analyzeStyleRouteV2,
      runUploadRoute, analyzeHandler, analyzeStyleHandler, analyzeHandlerV2,
      analyzeStyleHandlerV2]

/-- C4 counterexample: with the AI service unconfigured, a `POST /analyze`
without an image field is answered 500, not 400. -/
theorem analyze_no_image_unconfigured_cex :
    (analyzeRoute false none "u1" (.ok "fb") []).response.status = 500 ∧
    ¬ (analyzeRoute false none "u1" (.ok "fb") []).response.status = 400 := by
  decide

/-- C4 amended: when the AI service is configured, a `POST /analyze` or
`/analyze-style` (both variants) without an attached image yields HTTP 400
with a JSON error body, no external call and no file write; when the
service is unconfigured the same request yields HTTP 500 (the
configuration error), still with no external call and no file write. -/
theorem analyze_no_image :
    ∀ (p : String) (ext : ExtResult) (store : List String),
      analyzeRoute true none p ext store
        = ⟨store, ⟨400, .jsonError "이미지 파일이 없습니다."⟩, false, false, none⟩ ∧
      analyzeStyleRoute true none p ext store
        = ⟨store, ⟨400, .jsonError "이미지 파일이 없습니다."⟩, false, false, none⟩ ∧
      analyzeRouteV2 true none p ext store
        = ⟨store, ⟨400, .jsonError "이미지 파일이 없습니다."⟩, false, false, none⟩ ∧
      analyzeStyleRouteV2 true none p ext store
        = ⟨store, ⟨400, .jsonError "이미지 파일이 없습니다."⟩, false, false, none⟩ ∧
      analyzeRoute false none p ext store
        = ⟨store, ⟨500, .jsonError "AI 서비스 설정이 필요합니다."⟩, false, false, none⟩ ∧
      analyzeStyleRoute false none p ext store
        = ⟨store, ⟨500, .jsonError "AI 서비스 설정이 필요합니다."⟩, false, false, none⟩ ∧
      analyzeRouteV2 false none p ext store
        = ⟨store, ⟨500, .jsonError "AI 분석 중 오류가 발생했습니다."⟩, false, false, none⟩ ∧
      analyzeStyleRouteV2 false none p ext store
        = ⟨store, ⟨500, .jsonError "AI 스타일 분석 중 오류가 발생했습니다."⟩, false, false, none⟩ := by
  intro p ext store
  exact ⟨rfl, rfl, rfl, rfl, rfl, rfl, rfl, rfl⟩

/-- C5: whenever the configured provider fails, each inference route
responds 500 with a fixed generic error body that does not depend on the
raw provider error text — so any two provider failures produce identical
client responses and the raw error text is never forwarded. -/
theorem provider_failure_generic :
    ∀ (mt p e : String) (store : List String),
      (analyzeRoute true (some ⟨mt⟩) p (.fail e) store).response
        = ⟨500, .jsonError "AI 분석 중 오류가 발생했습니다."⟩ ∧
      (analyzeStyleRoute true (some ⟨mt⟩) p (.fail e) store).response
        = ⟨500, .jsonError "AI 스타일 분석 중 오류가 발생했습니다."⟩ ∧
      (analyzeRouteV2 true (some ⟨mt⟩) p (.fail e) store).response
        = ⟨500, .jsonError "AI 분석 중 오류가 발생했습니다."⟩ ∧
      (analyzeStyleRouteV2 true (some ⟨mt⟩) p (.fail e) store).response
        = ⟨500, .jsonError "AI 스타일 분석 중 오류가 발생했습니다."⟩ ∧
      (∀ m : JsValue, trimmedField m ≠ "" →
        (chatHandler true m (.fail e)).1
          = ⟨500, .jsonError "AI 챗봇 처리 중 오류가 발생했습니다."⟩) := by
  intro mt p e store
  refine ⟨rfl, rfl, rfl, rfl, ?_⟩
  intro m hm
  simp [chatHandler, hm]

/-- C5 witness: a concrete chat request with a nonempty message and a
failing provider receives the fixed generic 500 body. -/
theorem provider_failure_generic_witness :
    (chatHandler true (.vStr "hello") (.fail "quota exceeded")).1
      = ⟨500, .jsonError "AI 챗봇 처리 중 오류가 발생했습니다."⟩ :=
  (provider_failure_generic "image/png" "u1" "quota exceeded" []).2.2.2.2
    (.vStr "hello") (by decide)

/-- C6: the `/survey` scenario — role `student`, interests
`["drawing","painting"]`, feedback `He said "hi"` — appends exactly one
CSV row whose feedback field is the literal escaped text
`"He said ""hi"""`, and responds HTTP 200 with a JSON message body. -/
theorem survey_scenario_row :
    ∀ ts log : String,
      surveyHandler ts (.vStr "student") (.vArr [.vStr "drawing", .vStr "painting"])
        (.vStr "He said \"hi\"") (some log) true
      = (some (log ++ (ts ++ ",\"student\",\"drawing; painting\",\"He said \"\"hi\"\"\"\n")),
          ⟨200, .jsonMessage "설문이 성공적으로 제출되었습니다."⟩) := by
  intro ts log
  simp only [surveyHandler, surveyRow]
  congr 2

/-- C7: the survey log is append-only — every successful submission
appends exactly one row at the end of the existing content (which is kept
unchanged as a prefix), responds 200, and a second submission (identical
or not) appends a second row after the first; no deduplication occurs. -/
theorem survey_append_only :
    ∀ (ts1 ts2 : String) (r1 i1 f1 r2 i2 f2 : JsValue) (log : String),
      (surveyHandler ts1 r1 i1 f1 (some log) true).1
        = some (log ++ surveyRow ts1 r1 i1 f1) ∧
      (surveyHandler ts1 r1 i1 f1 (some log) true).2.status = 200 ∧
      (surveyHandler ts2 r2 i2 f2 (surveyHandler ts1 r1 i1 f1 (some log) true).1 true).1
        = some ((log ++ surveyRow ts1 r1 i1 f1) ++ surveyRow ts2 r2 i2 f2) := by
  intro ts1 ts2 r1 i1 f1 r2 i2 f2 log
  exact ⟨rfl, rfl, rfl⟩

/-- C10: the `/survey` handler is total over arbitrary bodies and never
returns a client error: any role/interests/feedback values are normalized
(non-string role and feedback become the empty string; non-array truthy
interests becomes a one-element list, falsy interests the empty list) and
a row is appended with HTTP 200; the only failure is the storage fault,
mapped to HTTP 500. -/
theorem survey_total_normalizes :
    ∀ (r i f : JsValue) (ts log : String) (csvFile : Option String) (ok : Bool),
      (surveyHandler ts r i f (some log) true
        = (some (log ++ surveyRow ts r i f),
            ⟨200, .jsonMessage "설문이 성공적으로 제출되었습니다."⟩)) ∧
      (surveyHandler ts r i f none true
        = (some (surveyHeader ++ surveyRow ts r i f),
            ⟨200, .jsonMessage "설문이 성공적으로 제출되었습니다."⟩)) ∧
      (surveyHandler ts r i f csvFile false
        = (csvFile, ⟨500, .jsonError "데이터 저장 중 오류가 발생했습니다."⟩)) ∧
      ((surveyHandler ts r i f csvFile ok).2.status = 200 ∨
        (surveyHandler ts r i f csvFile ok).2.status = 500) ∧
      (trimmedField .vUndefined = "" ∧ trimmedField .vNull = "" ∧
        (∀ b : Bool, trimmedField (.vBool b) = "") ∧
        (∀ n : Int, trimmedField (.vNum n) = "") ∧
        (∀ items : List JsValue, trimmedField (.vArr items) = "")) ∧
      (∀ items : List JsValue, interestsListOf (.vArr items) = items) ∧
      (∀ s : String, interestsListOf (.vStr s) = if s = "" then [] else [.vStr s]) ∧
      (interestsListOf .vNull = [] ∧ interestsListOf .vUndefined = [] ∧
        (∀ n : Int, interestsListOf (.vNum n) = if n = 0 then [] else [.vNum n])) := by
  intro r i f ts log csvFile ok
  refine ⟨rfl, rfl, rfl, ?_, ⟨rfl, rfl, fun b => rfl, fun n => rfl, fun items => rfl⟩,
    fun items => rfl, ?_, rfl, rfl, ?_⟩
  · cases ok
    · exact Or.inr rfl
    · exact Or.inl rfl
  · intro s
    by_cases hs : s = "" <;> simp [interestsListOf, jsTruthy, hs]
  · intro n
    by_cases hn : n = 0 <;> simp [interestsListOf, jsTruthy, hn]

/-- C8 counterexample: a declared-but-empty `Origin` value is accepted by
the code although it is neither absent nor a member of the allow-set. -/
theorem cors_empty_origin_cex :
    corsOriginAccepts (some "") = true ∧ corsSpecAccepts (some "") = false := by
  decide

/-- C8 amended: the origin check accepts exactly when the declared origin
is absent, is the empty string (also falsy in the JavaScript test), or is
a member of the statically configured allow-set; every rejected origin
short-circuits before the request body is processed. -/
theorem cors_accepts_iff :
    (∀ o : Option String,
      corsOriginAccepts o = true
        ↔ (o = none ∨ o = some "" ∨ ∃ s, o = some s ∧ s ∈ allowedOrigins)) ∧
    (∀ (o : Option String) (h : HttpResponse),
      corsOriginAccepts o = false → (requestPipeline o h).2 = false) := by
  constructor
  · intro o
    cases o with
    | none => simp [corsOriginAccepts]
    | some s => simp [corsOriginAccepts, List.elem_iff]
  · intro o h hrej
    simp [requestPipeline, hrej]

/-- C8 witness: a concrete disallowed origin is rejected without the body
being processed. -/
theorem cors_accepts_iff_witness :
    (requestPipeline (some "https://evil.example") ⟨200, .jsonMessage "ok"⟩).2 = false :=
  cors_accepts_iff.2 (some "https://evil.example") ⟨200, .jsonMessage "ok"⟩ (by decide)

/-- C9: `sanitizeCsvValue` is a reversible encoding — on every string it
produces the string wrapped in double quotes with each interior double
quote doubled, the standard CSV field decode recovers the string exactly,
the encoding is injective on strings, and `null`/`undefined` are encoded
as the empty quoted field. -/
theorem sanitizeCsvValue_reversible :
    (∀ s : String, csvFieldDecode (sanitizeCsvValue (.vStr s)) = some s) ∧
    (∀ s t : String, sanitizeCsvValue (.vStr s) = sanitizeCsvValue (.vStr t) → s = t) ∧
    (∀ s : String,
      sanitizeCsvValue (.vStr s)
        = String.mk (dquoteChar :: (dupQuotes s.data ++ [dquoteChar]))) ∧
    sanitizeCsvValue .vNull = "\"\"" ∧ sanitizeCsvValue .vUndefined = "\"\"" := by
  refine ⟨csvFieldDecode_sanitize, ?_, sanitize_vStr, by decide, by decide⟩
  intro s t h
  have hs := csvFieldDecode_sanitize s
  rw [h, csvFieldDecode_sanitize t] at hs
  exact ((Option.some.injEq t s).mp hs).symm

/-- C9 witness: the injectivity direction applied at a concrete encoded
value. -/
theorem sanitizeCsvValue_reversible_witness : ("a\"b" : String) = "a\"b" :=
  sanitizeCsvValue_reversible.2.1 "a\"b" "a\"b" rfl

/-- C3 counterexample: a `/preregister` submission whose email contains
`<b>` is interpolated raw into the rendered notification body — the body
differs from the escaped rendering the specification describes. -/
theorem preregister_no_escaping_cex :
    (preregisterHandler true (.vStr "<b>") true).2
      = some ⟨preregSubj, preregTplA ++ ("<b>" ++ preregTplB)⟩ ∧
    preregTplA ++ ("<b>" ++ preregTplB) ≠ preregMailHtmlSpec "<b>" := by
  constructor
  · decide
  · decide

/-- C3 amended: every `/contact` submission passes name, email and message
through `escapeHtml` before interpolation (newlines in the message become
`<br>` only after escaping), the escaping encodes each source character
independently and its output contains no raw `<`, `>`, double-quote or
single-quote character; the `/preregister` handler, by contrast,
interpolates the trimmed email into the rendered body without any
escaping. -/
theorem contact_escapes_preregister_raw :
    (∀ l : List Char, escapeHtmlChars l = escapeAll l) ∧
    (∀ (s : String) (c : Char), c ∈ (escapeHtmlStr s).data →
      c ≠ '<' ∧ c ≠ '>' ∧ c ≠ dquoteChar ∧ c ≠ squoteChar) ∧
    (∀ (n e m : String) (sendOk : Bool),
      jsTrim n ≠ "" → jsTrim e ≠ "" → jsTrim m ≠ "" →
      (contactHandler true (.vStr n) (.vStr e) (.vStr m) sendOk).2
        = some ⟨contactSubjPre ++ escapeHtmlStr (jsTrim n) ++ contactSubjPost,
            contactTplA ++ escapeHtmlStr (jsTrim n) ++ (contactTplB ++ (escapeHtmlStr (jsTrim e) ++
              (contactTplC ++ (String.mk (replaceChar '\n' "<br>".data
                (escapeHtmlStr (jsTrim m)).data) ++ contactTplD))))⟩) ∧
    (∀ (e : String) (sendOk : Bool), jsTrim e ≠ "" →
      (preregisterHandler true (.vStr e) sendOk).2
        = some ⟨preregSubj, preregTplA ++ (jsTrim e ++ preregTplB)⟩) := by
  refine ⟨escapeHtmlChars_eq_escapeAll, ?_, ?_, ?_⟩
  · intro s c hc
    have hc' : c ∈ escapeAll s.data := by
      rw [← escapeHtmlChars_eq_escapeAll]
      exact hc
    obtain ⟨x, _, hx⟩ := mem_escapeAll hc'
    exact mem_escapeHtmlChar hx
  · intro n e m sendOk hn he hm
    cases sendOk <;> simp [contactHandler, trimmedField, hn, he, hm]
  · intro e sendOk he
    cases sendOk <;> simp [preregisterHandler, trimmedField, he]

/-- C3 witness: the second conjunct applied to the escape of `"<"` (whose
output starts with `&`), and the handler-level conjuncts applied to a
concrete submission. -/
theorem contact_escapes_preregister_raw_witness :
    (('&' : Char) ≠ '<' ∧ ('&' : Char) ≠ '>' ∧ ('&' : Char) ≠ dquoteChar ∧
      ('&' : Char) ≠ squoteChar) ∧
    (contactHandler true (.vStr "alice") (.vStr "a@b.c") (.vStr "hi") true).2
      = some ⟨contactSubjPre ++ escapeHtmlStr (jsTrim "alice") ++ contactSubjPost,
          contactTplA ++ escapeHtmlStr (jsTrim "alice") ++ (contactTplB ++
            (escapeHtmlStr (jsTrim "a@b.c") ++ (contactTplC ++
              (String.mk (replaceChar '\n' "<br>".data
                (escapeHtmlStr (jsTrim "hi")).data) ++ contactTplD))))⟩ ∧
    (preregisterHandler true (.vStr "a@b.c") true).2
      = some ⟨preregSubj, preregTplA ++ (jsTrim "a@b.c" ++ preregTplB)⟩ :=
  ⟨contact_escapes_preregister_raw.2.1 "<" '&' (by decide),
    contact_escapes_preregister_raw.2.2.1 "alice" "a@b.c" "hi" true
      (by decide) (by decide) (by decide),
    contact_escapes_preregister_raw.2.2.2 "a@b.c" true (by decide)⟩
